import Mathlib

/-!
Shallow embedding of `src/app.py` (Air Quality Checker, a Streamlit app).

Conventions of the embedding:
* Python floats are modelled as `Rat`; the concentrations and coordinates the
  claims are about are exact decimal literals, so no binary rounding questions
  arise at the modelled inputs.
* A Python `dict` is modelled as an association list in insertion order, which
  is the iteration order of a Python dict.
* A JSON object field that may be absent is an `Option`; subscripting an
  absent field raises `KeyError`, modelled by `Except`.
* The outcome of `requests.get(url, timeout=10).json()` is a parameter of each
  client function: either a parsed payload or a raised transport exception
  (`requests` raises on timeout and on connection failure, and the source
  wraps no call in try/except).
-/

/-- Model of a Python exception value, as far as this program can raise one. -/
inductive PyErr where
  | keyError (key : String)
  | timeout
  | transportError (msg : String)
  deriving DecidableEq

/-- Outcome of an outbound HTTP request followed by `.json()`: either the
parsed payload or a raised transport exception. -/
inductive NetResult (α : Type) where
  | response (payload : α)
  | failure (e : PyErr)
  deriving DecidableEq

/-- One candidate object of the geocoding response array.  The source reads
`res[0]["lat"]` and `res[0]["lon"]`; an absent field makes the subscript
raise `KeyError`, so both fields are optional here. -/
structure Candidate where
  lat? : Option Rat
  lon? : Option Rat
  deriving DecidableEq

/-- Model of the `"main"` object of an air-pollution entry; the source reads
`item["main"]["aqi"]`. -/
structure AQMain where
  aqi? : Option Int
  deriving DecidableEq

/-- One entry of the air-pollution response `"list"` array.  The `dt` field is
read with `.get`, so its absence is not an error. -/
structure AQItem where
  main? : Option AQMain
  components? : Option (List (String × Rat))
  dt? : Option Int
  deriving DecidableEq

/-- Model of the air-pollution response object; the source tests
`"list" not in res`, so the field itself is optional. -/
structure AQResponse where
  list? : Option (List AQItem)
  deriving DecidableEq

/-- The dictionary built by `fetch_air_quality` on success: `aqi`,
`components`, `dt`. -/
structure AQReading where
  aqi : Int
  components : List (String × Rat)
  dt? : Option Int
  deriving DecidableEq

/-- Table `AQI_TEXT` of `src/app.py`: AQI category to label. -/
def AQI_TEXT : List (Int × String) :=
  [(1, "Good"), (2, "Fair"), (3, "Moderate"), (4, "Poor"), (5, "Very Poor")]

/-- Table `HEALTH_ADVICE` of `src/app.py`: AQI category to advice text; each
string begins with an emoji marker, exactly as in the source. -/
def HEALTH_ADVICE : List (Int × String) :=
  [(1, "✅ Air quality is good. Great for outdoor activities."),
   (2, "🙂 Acceptable air quality. Minor precautions for sensitive groups."),
   (3, "⚠️ Moderate pollution. Consider reducing outdoor exertion."),
   (4, "🚫 Unhealthy. Avoid outdoor activities and wear a mask."),
   (5, "❗ Very unhealthy. Stay indoors with air purification if possible.")]

/-- Python `dict.get(k, default)` on the association-list model. -/
def dictGetD (d : List (Int × String)) (k : Int) (dflt : String) : String :=
  match d.find? (fun p => decide (p.1 = k)) with
  | some p => p.2
  | none => dflt

/-- Python whitespace characters relevant to `str.strip()` (space, tab,
newline, carriage return, vertical tab, form feed). -/
def isSpaceChar (c : Char) : Bool :=
  c == ' ' || c == '\t' || c == '\n' || c == '\r' ||
  c == Char.ofNat 11 || c == Char.ofNat 12

/-- Python `str.strip()`: drop leading and trailing whitespace. -/
def pyStrip (s : String) : String :=
  String.mk (((s.data.dropWhile isSpaceChar).reverse.dropWhile isSpaceChar).reverse)

/-- Python `str.upper()`.  The pollutant codes and keys in play are ASCII,
for which it is exactly per-character ASCII uppercasing. -/
def pyUpper (s : String) : String :=
  String.mk (s.data.map Char.toUpper)

/-- Function `geocode_city` of `src/app.py` (the body after the request):
given the outcome of the HTTP call, return `None` for an empty candidate
array, else the pair `res[0]["lat"], res[0]["lon"]`.  A missing field raises
`KeyError` — the subscripts are unguarded — and a transport failure
propagates, since nothing is caught. -/
def geocode_city (net : NetResult (List Candidate)) :
    Except PyErr (Option (Rat × Rat)) :=
  match net with
  | .failure e => .error e
  | .response res =>
    match res with
    | [] => .ok none
    | c :: _ =>
      match c.lat? with
      | none => .error (.keyError "lat")
      | some la =>
        match c.lon? with
        | none => .error (.keyError "lon")
        | some lo => .ok (some (la, lo))

/-- Function `fetch_air_quality` of `src/app.py` (the body after the
request): `None` when `"list"` is absent or empty; otherwise the first entry
is read with the unguarded subscripts `item["main"]["aqi"]` and
`item["components"]`, so a malformed first entry raises `KeyError`; `dt` is
read with `.get` and may be absent. -/
def fetch_air_quality (net : NetResult AQResponse) :
    Except PyErr (Option AQReading) :=
  match net with
  | .failure e => .error e
  | .response res =>
    match res.list? with
    | none => .ok none
    | some [] => .ok none
    | some (item :: _) =>
      match item.main? with
      | none => .error (.keyError "main")
      | some m =>
        match m.aqi? with
        | none => .error (.keyError "aqi")
        | some a =>
          match item.components? with
          | none => .error (.keyError "components")
          | some comps => .ok (some ⟨a, comps, item.dt?⟩)

/-- Rendered bar chart of `plot_components`: title, y-axis label and the bar
sequence (label, height), one bar per list element, in list order. -/
structure Chart where
  title : String
  ylabel : String
  bars : List (String × Rat)
  deriving DecidableEq

/-- Function `plot_components` of `src/app.py`: uppercased keys as bar
labels, the values as heights, provider iteration order preserved.  Total:
an empty mapping yields an empty bar list with title and axis label still
set. -/
def plot_components (components : List (String × Rat)) : Chart :=
  let keys := components.map (fun p => pyUpper p.1)
  let values := components.map (fun p => p.2)
  ⟨"Air Pollutant Concentrations (μg/m³)", "Concentration (μg/m³)",
   keys.zip values⟩

/-- Value rounded to the nearest multiple of 1/100, as an integer count of
hundredths: for `v = num/den` this is `⌊v * 100 + 1/2⌋`, computed on the
numerator and denominator directly (`hundredths_eq_floor` below proves the
equation).  Ties go up; the modelled inputs are exact hundredths, so tie
behaviour is not exercised by any claim. -/
def hundredths (v : Rat) : Int :=
  Int.fdiv (200 * v.num + v.den) (2 * v.den)

/-- Two-digit rendering of a natural number below 100. -/
def pad2 (n : Nat) : String :=
  if n < 10 then "0" ++ toString n else toString n

/-- Python `f"{v:.2f}"` on the `Rat` model: the value rounded to hundredths,
printed with exactly two digits after the decimal point. -/
def fmt2 (v : Rat) : String :=
  if v < 0 then
    "-" ++ toString ((-(hundredths v)) / 100) ++ "." ++
      pad2 ((-(hundredths v)) % 100).toNat
  else
    toString (hundredths v / 100) ++ "." ++ pad2 (hundredths v % 100).toNat

/-- Python dict assignment `d[k] = v` on the association-list model: when
the key is present its value is replaced in place (position preserved),
otherwise the pair is appended. -/
def dictAssign (d : List (String × String)) (k v : String) :
    List (String × String) :=
  if d.any (fun p => decide (p.1 = k)) then
    d.map (fun p => if p.1 = k then (k, v) else p)
  else
    d ++ [(k, v)]

/-- Dict comprehension of line 141 of `src/app.py`: uppercased key mapped to
the 2-decimal formatted value, built left to right, so keys that collide
after uppercasing collapse to one row holding the later value. -/
def table_data (components : List (String × Rat)) : List (String × String) :=
  components.foldl (fun d p => dictAssign d (pyUpper p.1) (fmt2 p.2)) []

/-- Lookup of the table row stored under a given key. -/
def dictGetS (d : List (String × String)) (k : String) : Option String :=
  (d.find? (fun p => decide (p.1 = k))).map (fun p => p.2)

/-- One outbound network call made during a submission. -/
inductive Step where
  | geoCall (query : String)
  | aqCall (lat lon : Rat)
  deriving DecidableEq

/-- What one submission ends with, as seen by the user. -/
inductive Outcome where
  | missingCredential
  | emptyInput
  | cityNotFound
  | aqUnavailable
  | rendered (aqi : Int) (label advice : String)
      (table : List (String × String)) (chart : Chart)
  | uncaught (e : PyErr)
  deriving DecidableEq

/-- Block `if submitted:` of `src/app.py`, lines 100-146: the credential
check, then the empty-input check, then the two client calls in sequence
with short-circuit on failure (`st.stop()`), then the rendering step.
Returns the list of outbound calls made and the outcome.  The network
outcomes are parameters, one per possible call. -/
def handle_submission (apiKey cityInput : String)
    (geoNet : NetResult (List Candidate)) (aqNet : NetResult AQResponse) :
    List Step × Outcome :=
  if apiKey = "" then ([], .missingCredential)
  else if pyStrip cityInput = "" then ([], .emptyInput)
  else
    let q := pyStrip cityInput
    match geocode_city geoNet with
    | .error e => ([.geoCall q], .uncaught e)
    | .ok none => ([.geoCall q], .cityNotFound)
    | .ok (some (la, lo)) =>
      match fetch_air_quality aqNet with
      | .error e => ([.geoCall q, .aqCall la lo], .uncaught e)
      | .ok none => ([.geoCall q, .aqCall la lo], .aqUnavailable)
      | .ok (some rd) =>
        ([.geoCall q, .aqCall la lo],
         .rendered rd.aqi
           (dictGetD AQI_TEXT rd.aqi "Unknown")
           (dictGetD HEALTH_ADVICE rd.aqi "No advice available.")
           (table_data rd.components)
           (plot_components rd.components))

/-- Modelled from the spec: the `st.cache_data(ttl=...)` decorator applied to
`geocode_city` and `fetch_air_quality` in `src/app.py` is library code whose
implementation is not part of the repository.  Its behaviour is taken from
the spec: results cached keyed by the exact argument, valid for `ttl`
seconds, evicted lazily on lookup, one outbound call per miss.  A cache is a
list of (key, value, insertion time) entries. -/
structure Cache (κ α : Type) where
  entries : List (κ × α × Nat)

/-- Modelled from the spec: one call through the TTL cache at time `now`
(seconds).  A stored entry younger than `ttl` is returned without an
outbound call; otherwise `f` is called and the result stored at `now`.
Returns (value, whether an outbound call was made, cache afterwards). -/
def cachedCall {κ α : Type} [DecidableEq κ] (ttl : Nat) (f : κ → α)
    (c : Cache κ α) (key : κ) (now : Nat) : α × Bool × Cache κ α :=
  match c.entries.find? (fun e => decide (e.1 = key)) with
  | some e =>
    if now < e.2.2 + ttl then (e.2.1, false, c)
    else (f key, true,
      ⟨(key, f key, now) :: c.entries.filter (fun e2 => decide (e2.1 ≠ key))⟩)
  | none => (f key, true, ⟨(key, f key, now) :: c.entries⟩)

/-- TTL of the `geocode_city` cache, from `@st.cache_data(ttl=600)` on line
48 of `src/app.py` (seconds). -/
def GEOCODE_TTL : Nat := 600

/-- TTL of the `fetch_air_quality` cache, from `@st.cache_data(ttl=300)` on
line 59 of `src/app.py` (seconds). -/
def AIR_QUALITY_TTL : Nat := 300

/-- Modelled from the spec: the cached geocoding client, keyed by the exact
query string. -/
def geocode_city_cached (net : String → NetResult (List Candidate))
    (c : Cache String (Except PyErr (Option (Rat × Rat)))) (q : String)
    (now : Nat) :
    Except PyErr (Option (Rat × Rat)) × Bool ×
      Cache String (Except PyErr (Option (Rat × Rat))) :=
  cachedCall GEOCODE_TTL (fun q2 => geocode_city (net q2)) c q now

/-- Modelled from the spec: the cached air-quality client, keyed by the
exact (lat, lon) pair. -/
def fetch_air_quality_cached (net : Rat × Rat → NetResult AQResponse)
    (c : Cache (Rat × Rat) (Except PyErr (Option AQReading))) (ll : Rat × Rat)
    (now : Nat) :
    Except PyErr (Option AQReading) × Bool ×
      Cache (Rat × Rat) (Except PyErr (Option AQReading)) :=
  cachedCall AIR_QUALITY_TTL (fun p => fetch_air_quality (net p)) c ll now

/-- Sanity equation for the embedding of `f"{v:.2f}"`: the integer-arithmetic
rounding used by `hundredths` agrees with rounding to the nearest hundredth,
`⌊v * 100 + 1/2⌋`, at every rational. -/
theorem hundredths_eq_floor (v : Rat) :
    hundredths v = ⌊(v * 100 + 1/2 : Rat)⌋ := by
  have hden0 : ((v.den : Rat)) ≠ 0 := by
    exact_mod_cast v.den_nz
  have hcast : (v * 100 + 1/2 : Rat)
      = ((200 * v.num + (v.den : Int) : Int) : Rat) / ((2 * v.den : Nat) : Rat) := by
    conv_lhs => rw [← Rat.num_div_den v]
    push_cast
    field_simp
    ring
  rw [hundredths, hcast, Rat.floor_intCast_div_natCast,
      Int.fdiv_eq_ediv _ (by positivity)]
  push_cast
  ring_nf

/-- Assigning a fresh key appends the pair at the end. -/
theorem dictAssign_of_not_mem (d : List (String × String)) (k v : String)
    (h : ∀ p ∈ d, p.1 ≠ k) : dictAssign d k v = d ++ [(k, v)] := by
  unfold dictAssign
  rw [if_neg]
  simp only [List.any_eq_true, decide_eq_true_eq, not_exists, not_and]
  exact h

/-- Assigning a present key keeps the number of rows. -/
theorem length_dictAssign_of_mem (d : List (String × String)) (k v : String)
    (h : ∃ p ∈ d, p.1 = k) : (dictAssign d k v).length = d.length := by
  unfold dictAssign
  rw [if_pos]
  · simp
  · simp only [List.any_eq_true, decide_eq_true_eq]
    exact h

/-- Assigning adds at most one row. -/
theorem length_dictAssign_le (d : List (String × String)) (k v : String) :
    (dictAssign d k v).length ≤ d.length + 1 := by
  unfold dictAssign
  split_ifs <;> simp

/-- After an assignment its key is present. -/
theorem mem_keys_dictAssign_self (d : List (String × String)) (k v : String) :
    ∃ p ∈ dictAssign d k v, p.1 = k := by
  unfold dictAssign
  split_ifs with h
  · simp only [List.any_eq_true, decide_eq_true_eq] at h
    obtain ⟨p, hp, hpk⟩ := h
    refine ⟨(k, v), ?_, rfl⟩
    exact List.mem_map.mpr ⟨p, hp, by simp [hpk]⟩
  · exact ⟨(k, v), by simp, rfl⟩

/-- An assignment keeps every key that was present. -/
theorem mem_keys_dictAssign_of_mem (d : List (String × String)) (k v k2 : String)
    (h : ∃ p ∈ d, p.1 = k2) : ∃ p ∈ dictAssign d k v, p.1 = k2 := by
  obtain ⟨p, hp, hpk⟩ := h
  unfold dictAssign
  split_ifs with hany
  · by_cases hk : p.1 = k
    · refine ⟨(k, v), List.mem_map.mpr ⟨p, hp, by simp [hk]⟩, ?_⟩
      rw [← hpk, hk]
    · exact ⟨p, List.mem_map.mpr ⟨p, hp, by simp [hk]⟩, hpk⟩
  · exact ⟨p, List.mem_append_left _ hp, hpk⟩

/-- Reading back the key just assigned yields the assigned value. -/
theorem dictGetS_dictAssign_self (d : List (String × String)) (k v : String) :
    dictGetS (dictAssign d k v) k = some v := by
  unfold dictAssign dictGetS
  split_ifs with h
  · simp only [List.any_eq_true, decide_eq_true_eq] at h
    induction d with
    | nil => simp at h
    | cons p d ih =>
      by_cases hk : p.1 = k
      · simp [List.find?, hk]
      · rw [List.map_cons, if_neg hk]
        simp only [List.find?, decide_eq_false hk]
        apply ih
        obtain ⟨p2, hp2, hp2k⟩ := h
        rcases hp2 with _ | hp2
        · exact absurd hp2k hk
        · exact ⟨p2, by assumption, hp2k⟩
  · induction d with
    | nil => simp [List.find?]
    | cons p d ih =>
      have hk : ¬p.1 = k := by
        intro hk
        exact h (List.any_eq_true.mpr ⟨p, by simp, by simp [hk]⟩)
      simp only [List.cons_append, List.find?, decide_eq_false hk]
      apply ih
      intro hany
      apply h
      simp only [List.any_eq_true] at hany ⊢
      obtain ⟨p2, hp2, hp2k⟩ := hany
      exact ⟨p2, by simp [hp2], hp2k⟩

/-- An assignment leaves every other key unchanged. -/
theorem dictGetS_dictAssign_ne (d : List (String × String)) (k v k2 : String)
    (h : k2 ≠ k) : dictGetS (dictAssign d k v) k2 = dictGetS d k2 := by
  unfold dictAssign dictGetS
  split_ifs with hany
  · clear hany
    induction d with
    | nil => simp
    | cons p d ih =>
      by_cases hk : p.1 = k
      · rw [List.map_cons, if_pos hk,
          List.find?_cons_of_neg _ (by simp; exact fun e => h e.symm),
          List.find?_cons_of_neg _ (by simp; exact fun e => h (e.symm.trans hk))]
        exact ih
      · rw [List.map_cons, if_neg hk, List.find?_cons, List.find?_cons]
        cases hpk2 : decide (p.1 = k2)
        · exact ih
        · rfl
  · clear hany
    rw [List.find?_append]
    have h2 : List.find? (fun p => decide (p.1 = k2)) [(k, v)] = none := by
      simp
      exact fun e => h e.symm
    rw [h2]
    cases h3 : List.find? (fun p => decide (p.1 = k2)) d <;> simp [h3]

/-- Building the table preserves every key already in the accumulator. -/
theorem foldl_assign_keys_mono (m : List (String × Rat)) (d : List (String × String))
    (k : String) (h : ∃ p ∈ d, p.1 = k) :
    ∃ p ∈ m.foldl (fun d2 p => dictAssign d2 (pyUpper p.1) (fmt2 p.2)) d, p.1 = k := by
  induction m generalizing d with
  | nil => exact h
  | cons q m ih =>
    exact ih _ (mem_keys_dictAssign_of_mem _ _ _ _ h)

/-- Every processed entry leaves its uppercased key in the table. -/
theorem foldl_assign_keys_of_mem (m : List (String × Rat)) (d : List (String × String))
    (q : String × Rat) (hq : q ∈ m) :
    ∃ p ∈ m.foldl (fun d2 p => dictAssign d2 (pyUpper p.1) (fmt2 p.2)) d,
      p.1 = pyUpper q.1 := by
  induction m generalizing d with
  | nil => cases hq
  | cons q2 m ih =>
    rcases List.mem_cons.mp hq with rfl | hq
    · exact foldl_assign_keys_mono m _ _ (mem_keys_dictAssign_self _ _ _)
    · exact ih _ hq

/-- The built table has at most one row per processed entry. -/
theorem foldl_assign_length_le (m : List (String × Rat)) (d : List (String × String)) :
    (m.foldl (fun d2 p => dictAssign d2 (pyUpper p.1) (fmt2 p.2)) d).length
      ≤ d.length + m.length := by
  induction m generalizing d with
  | nil => simp
  | cons q m ih =>
    calc (List.foldl _ (dictAssign d (pyUpper q.1) (fmt2 q.2)) m).length
        ≤ (dictAssign d (pyUpper q.1) (fmt2 q.2)).length + m.length := ih _
      _ ≤ (d.length + 1) + m.length := by
          exact Nat.add_le_add_right (length_dictAssign_le _ _ _) _
      _ = d.length + (q :: m).length := by simp [Nat.add_assoc, Nat.add_comm 1]

/-- Entries whose uppercased key differs from `k` do not affect the row at
`k`. -/
theorem foldl_assign_dictGetS_of_no_key (m : List (String × Rat))
    (d : List (String × String)) (k : String) (h : ∀ q ∈ m, pyUpper q.1 ≠ k) :
    dictGetS (m.foldl (fun d2 p => dictAssign d2 (pyUpper p.1) (fmt2 p.2)) d) k
      = dictGetS d k := by
  induction m generalizing d with
  | nil => rfl
  | cons q m ih =>
    rw [List.foldl_cons, ih _ (fun q2 hq2 => h q2 (by simp [hq2])),
      dictGetS_dictAssign_ne _ _ _ _ (fun e => h q (by simp) e.symm)]

/-- The chart has exactly one bar per mapping entry. -/
theorem plot_components_bars_length (m : List (String × Rat)) :
    (plot_components m).bars.length = m.length := by
  simp [plot_components]

/-- When no two uppercased keys collide, the table comprehension is just a
map over the entries, appended after the accumulator. -/
theorem foldl_assign_eq_append (m : List (String × Rat)) (d : List (String × String))
    (hd : ∀ q ∈ m, ∀ p ∈ d, p.1 ≠ pyUpper q.1)
    (hnd : (m.map (fun p => pyUpper p.1)).Nodup) :
    m.foldl (fun d2 p => dictAssign d2 (pyUpper p.1) (fmt2 p.2)) d
      = d ++ m.map (fun p => (pyUpper p.1, fmt2 p.2)) := by
  induction m generalizing d with
  | nil => simp
  | cons q m ih =>
    rw [List.foldl_cons, dictAssign_of_not_mem _ _ _ (hd q (by simp)),
      ih (d ++ [(pyUpper q.1, fmt2 q.2)]) ?_ ?_]
    · simp
    · intro q2 hq2 p hp
      rcases List.mem_append.mp hp with hp | hp
      · exact hd q2 (by simp [hq2]) p hp
      · simp at hp
        rw [hp]
        simp only [List.map_cons, List.nodup_cons] at hnd
        intro e
        apply hnd.1
        rw [show pyUpper q.1 = pyUpper q2.1 from e]
        exact List.mem_map_of_mem (fun p => pyUpper p.1) hq2
    · simp only [List.map_cons, List.nodup_cons] at hnd
      exact hnd.2

/-- C1 counterexample: the advice lookup for category 2 does not return the
literal table string of the spec; the source string carries a leading emoji
marker. -/
theorem c1_counterexample :
    dictGetD HEALTH_ADVICE 2 "No advice available."
      ≠ "Acceptable air quality. Minor precautions for sensitive groups." := by decide

/-- C1 (amended): for every integer key, the label lookup returns the table
label for keys 1..5 and "Unknown" otherwise, and the advice lookup returns
the table advice text prefixed with an emoji marker for keys 1..5 and
"No advice available." otherwise; both lookups are total and never fail. -/
theorem c1_lookups_total (k : Int) :
    dictGetD AQI_TEXT k "Unknown"
      = (if k = 1 then "Good" else if k = 2 then "Fair" else if k = 3 then "Moderate"
         else if k = 4 then "Poor" else if k = 5 then "Very Poor" else "Unknown")
  ∧ dictGetD HEALTH_ADVICE k "No advice available."
      = (if k = 1 then "✅ Air quality is good. Great for outdoor activities."
         else if k = 2 then "🙂 Acceptable air quality. Minor precautions for sensitive groups."
         else if k = 3 then "⚠️ Moderate pollution. Consider reducing outdoor exertion."
         else if k = 4 then "🚫 Unhealthy. Avoid outdoor activities and wear a mask."
         else if k = 5 then "❗ Very unhealthy. Stay indoors with air purification if possible."
         else "No advice available.") := by
  constructor <;>
  · simp only [dictGetD, AQI_TEXT, HEALTH_ADVICE, List.find?]
    split_ifs <;> simp_all [eq_comm]

/-- C2 counterexample: a timeout during the geocoding call is not converted
into a user-facing NotFound result; the submission ends with an uncaught
exception. -/
theorem c2_counterexample :
    handle_submission "key" "Taipei" (.failure .timeout) (.response ⟨some []⟩)
      = ([.geoCall "Taipei"], .uncaught .timeout) := by decide

/-- C2 (amended): a timeout or transport failure during the geocoding call or
the air-quality call is not caught anywhere; it propagates out of the
submission handler as an uncaught exception, for any valid credential and
non-empty input. -/
theorem c2_transport_failure_uncaught (apiKey city : String) (e : PyErr)
    (geoNet : NetResult (List Candidate)) (aqNet : NetResult AQResponse)
    (la lo : Rat) (hk : apiKey ≠ "") (hc : pyStrip city ≠ "") :
    handle_submission apiKey city (.failure e) aqNet
      = ([.geoCall (pyStrip city)], .uncaught e)
  ∧ (geocode_city geoNet = .ok (some (la, lo)) →
      handle_submission apiKey city geoNet (.failure e)
        = ([.geoCall (pyStrip city), .aqCall la lo], .uncaught e)) := by
  constructor
  · simp [handle_submission, hk, hc, geocode_city]
  · intro hgeo
    simp [handle_submission, hk, hc, hgeo, fetch_air_quality]

/-- C2 witness: concrete uncaught failures at both call sites. -/
theorem c2_transport_failure_uncaught_witness :
    handle_submission "k" "Paris" (.failure .timeout) (.response ⟨some []⟩)
      = ([.geoCall (pyStrip "Paris")], .uncaught .timeout)
  ∧ handle_submission "k" "Paris" (.response [⟨some 25, some 121⟩]) (.failure .timeout)
      = ([.geoCall (pyStrip "Paris"), .aqCall 25 121], .uncaught .timeout) :=
  ⟨(c2_transport_failure_uncaught "k" "Paris" .timeout (.response [⟨some 25, some 121⟩])
      (.response ⟨some []⟩) 25 121 (by decide) (by decide)).1,
   (c2_transport_failure_uncaught "k" "Paris" .timeout (.response [⟨some 25, some 121⟩])
      (.response ⟨some []⟩) 25 121 (by decide) (by decide)).2 rfl⟩

/-- C3 counterexample: a response whose first entry is malformed (missing the
main field) makes `fetch_air_quality` raise KeyError rather than return
Unavailable. -/
theorem c3_counterexample :
    fetch_air_quality (.response ⟨some [⟨none, none, none⟩]⟩)
        = .error (.keyError "main")
  ∧ fetch_air_quality (.response ⟨some [⟨none, none, none⟩]⟩) ≠ .ok none := by
  exact ⟨rfl, by simp [fetch_air_quality]⟩

/-- C3 (amended): `fetch_air_quality` returns Unavailable exactly when the
response lacks the list field or the list is empty, and the controller then
reports the failure and renders no chart; but a malformed first entry
(missing main, aqi or components) raises KeyError instead of returning
Unavailable. -/
theorem c3_unavailable_on_empty (apiKey city : String) (item : AQItem)
    (rest : List AQItem) (geoNet : NetResult (List Candidate)) (la lo : Rat)
    (hk : apiKey ≠ "") (hc : pyStrip city ≠ "")
    (hgeo : geocode_city geoNet = .ok (some (la, lo))) :
    fetch_air_quality (.response ⟨none⟩) = .ok none
  ∧ fetch_air_quality (.response ⟨some []⟩) = .ok none
  ∧ handle_submission apiKey city geoNet (.response ⟨some []⟩)
      = ([.geoCall (pyStrip city), .aqCall la lo], .aqUnavailable)
  ∧ (item.main? = none →
      fetch_air_quality (.response ⟨some (item :: rest)⟩) = .error (.keyError "main"))
  ∧ (∀ m, item.main? = some m → m.aqi? = none →
      fetch_air_quality (.response ⟨some (item :: rest)⟩) = .error (.keyError "aqi"))
  ∧ (∀ m a, item.main? = some m → m.aqi? = some a → item.components? = none →
      fetch_air_quality (.response ⟨some (item :: rest)⟩)
        = .error (.keyError "components")) := by
  refine ⟨rfl, rfl, ?_, ?_, ?_, ?_⟩
  · simp [handle_submission, hk, hc, hgeo, fetch_air_quality]
  · intro h; simp [fetch_air_quality, h]
  · intro m h1 h2; simp [fetch_air_quality, h1, h2]
  · intro m a h1 h2 h3; simp [fetch_air_quality, h1, h2, h3]

/-- C3 witness: the empty-list scenario reports Unavailable and renders
nothing, and a first entry whose main object lacks the aqi field raises. -/
theorem c3_unavailable_on_empty_witness :
    handle_submission "k" "Taipei" (.response [⟨some 25, some 121⟩]) (.response ⟨some []⟩)
      = ([.geoCall (pyStrip "Taipei"), .aqCall 25 121], .aqUnavailable)
  ∧ fetch_air_quality (.response ⟨some [⟨some ⟨none⟩, some [], none⟩]⟩)
      = .error (.keyError "aqi") :=
  ⟨(c3_unavailable_on_empty "k" "Taipei" ⟨some ⟨none⟩, some [], none⟩ []
      (.response [⟨some 25, some 121⟩]) 25 121 (by decide) (by decide) rfl).2.2.1,
   (c3_unavailable_on_empty "k" "Taipei" ⟨some ⟨none⟩, some [], none⟩ []
      (.response [⟨some 25, some 121⟩]) 25 121 (by decide) (by decide) rfl).2.2.2.2.1
     ⟨none⟩ rfl rfl⟩

/-- C4: the missing-credential check runs first (it fires even when the input
is also empty) and the empty-trimmed-input check second; each failure ends
the submission with an error and an empty list of outbound calls. -/
theorem c4_validation_short_circuits (apiKey city : String)
    (geoNet : NetResult (List Candidate)) (aqNet : NetResult AQResponse) :
    (apiKey = "" →
      handle_submission apiKey city geoNet aqNet = ([], .missingCredential))
  ∧ (apiKey ≠ "" → pyStrip city = "" →
      handle_submission apiKey city geoNet aqNet = ([], .emptyInput)) := by
  constructor
  · intro h; simp [handle_submission, h]
  · intro h1 h2; simp [handle_submission, h1, h2]

/-- C4 witness: with no credential (and even an empty city) the outcome is
MissingCredential with no network call; with a credential and blank input it
is EmptyInput with no network call. -/
theorem c4_validation_short_circuits_witness :
    handle_submission "" "" (.response []) (.response ⟨none⟩)
      = ([], .missingCredential)
  ∧ handle_submission "k" "   " (.response []) (.response ⟨none⟩)
      = ([], .emptyInput) :=
  ⟨(c4_validation_short_circuits "" "" (.response []) (.response ⟨none⟩)).1 rfl,
   (c4_validation_short_circuits "k" "   " (.response []) (.response ⟨none⟩)).2
     (by decide) (by decide)⟩

/-- C5: with at least one candidate, `geocode_city` returns the lat/lon pair
of the first candidate; with zero candidates it returns None, and the
controller then reports city-not-found having made only the geocoding call,
never the air-quality call. -/
theorem c5_geocode_first_candidate (apiKey city : String) (c : Candidate)
    (rest : List Candidate) (aqNet : NetResult AQResponse) (la lo : Rat)
    (hla : c.lat? = some la) (hlo : c.lon? = some lo)
    (hk : apiKey ≠ "") (hc : pyStrip city ≠ "") :
    geocode_city (.response (c :: rest)) = .ok (some (la, lo))
  ∧ geocode_city (.response ([] : List Candidate)) = .ok none
  ∧ handle_submission apiKey city (.response []) aqNet
      = ([.geoCall (pyStrip city)], .cityNotFound) := by
  refine ⟨?_, rfl, ?_⟩
  · simp [geocode_city, hla, hlo]
  · simp [handle_submission, hk, hc, geocode_city]

/-- C5 witness: concrete first-candidate extraction and the
zero-candidate path of Scenario C. -/
theorem c5_geocode_first_candidate_witness :
    geocode_city (.response [⟨some (mkRat 2503 100), some (mkRat 12156 100)⟩])
      = .ok (some (mkRat 2503 100, mkRat 12156 100))
  ∧ handle_submission "k" "Qwxyzzy123" (.response []) (.response ⟨none⟩)
      = ([.geoCall (pyStrip "Qwxyzzy123")], .cityNotFound) :=
  ⟨(c5_geocode_first_candidate "k" "Qwxyzzy123"
      ⟨some (mkRat 2503 100), some (mkRat 12156 100)⟩ []
      (.response ⟨none⟩) (mkRat 2503 100) (mkRat 12156 100) rfl rfl
      (by decide) (by decide)).1,
   (c5_geocode_first_candidate "k" "Qwxyzzy123"
      ⟨some (mkRat 2503 100), some (mkRat 12156 100)⟩ []
      (.response ⟨none⟩) (mkRat 2503 100) (mkRat 12156 100) rfl rfl
      (by decide) (by decide)).2.2⟩

/-- C6: a second cached geocoding call with the identical query string,
within the TTL window of the entry stored by the first call, returns the
identical result with no outbound call and no cache change; the geocode TTL
is 600 seconds (10 minutes) and the air-quality TTL is 300 seconds
(5 minutes). -/
theorem c6_cache_idempotent (net : String → NetResult (List Candidate))
    (c : Cache String (Except PyErr (Option (Rat × Rat)))) (q : String) (t1 t2 : Nat)
    (hfresh : c.entries.find? (fun e => decide (e.1 = q)) = none)
    (hwin : t2 < t1 + GEOCODE_TTL) :
    (geocode_city_cached net c q t1).1 = geocode_city (net q)
  ∧ (geocode_city_cached net c q t1).2.1 = true
  ∧ geocode_city_cached net ((geocode_city_cached net c q t1).2.2) q t2
      = (geocode_city (net q), false, (geocode_city_cached net c q t1).2.2)
  ∧ GEOCODE_TTL = 10 * 60 ∧ AIR_QUALITY_TTL = 5 * 60 := by
  have h1 : geocode_city_cached net c q t1
      = (geocode_city (net q), true, ⟨(q, geocode_city (net q), t1) :: c.entries⟩) := by
    simp [geocode_city_cached, cachedCall, hfresh]
  refine ⟨by rw [h1], by rw [h1], ?_, rfl, rfl⟩
  rw [h1]
  simp [geocode_city_cached, cachedCall, List.find?, hwin]

/-- C6 witness: a fresh cache at time 0 and a repeat call at time 599. -/
theorem c6_cache_idempotent_witness :
    (geocode_city_cached (fun _ => .response []) ⟨[]⟩ "Taipei" 0).1
      = geocode_city (.response [])
  ∧ geocode_city_cached (fun _ => .response [])
      ((geocode_city_cached (fun _ => .response []) ⟨[]⟩ "Taipei" 0).2.2) "Taipei" 599
      = (geocode_city (.response []), false,
         (geocode_city_cached (fun _ => .response []) ⟨[]⟩ "Taipei" 0).2.2) :=
  ⟨(c6_cache_idempotent (fun _ => .response []) ⟨[]⟩ "Taipei" 0 599 rfl (by decide)).1,
   (c6_cache_idempotent (fun _ => .response []) ⟨[]⟩ "Taipei" 0 599 rfl
      (by decide)).2.2.1⟩

/-- C7 counterexample: for the mapping with entries "no2" and "NO2", the
formatted value of the earlier entry appears in no table row — the dict
comprehension collapses keys that collide after uppercasing, so the table
does not show every entry. -/
theorem c7_counterexample :
    table_data [("no2", 1), ("NO2", 2)] = [("NO2", "2.00")]
  ∧ ("NO2", fmt2 1) ∉ table_data [("no2", 1), ("NO2", 2)] := by
  constructor
  · decide
  · decide

/-- C7 (amended): for every mapping whose keys stay pairwise distinct after
uppercasing, each entry appears in the table as its uppercased key with the
value formatted to exactly 2 decimal places; in particular 12.3 renders as
"12.30" and "pm2_5" uppercases to "PM2_5". -/
theorem c7_table_formats_entries (m : List (String × Rat))
    (hnd : (m.map (fun p => pyUpper p.1)).Nodup) :
    (∀ p ∈ m, (pyUpper p.1, fmt2 p.2) ∈ table_data m)
  ∧ fmt2 (mkRat 123 10) = "12.30"
  ∧ pyUpper "pm2_5" = "PM2_5" := by
  refine ⟨?_, by decide, by decide⟩
  intro p hp
  unfold table_data
  rw [foldl_assign_eq_append m [] (by simp) hnd]
  simp only [List.nil_append]
  exact List.mem_map_of_mem _ hp

/-- C7 witness: the Scenario A mapping, rendered rows present and formatted. -/
theorem c7_table_formats_entries_witness :
    (pyUpper "pm2_5", fmt2 (mkRat 152 10))
        ∈ table_data [("pm2_5", mkRat 152 10), ("o3", mkRat 401 10)]
  ∧ fmt2 (mkRat 123 10) = "12.30" :=
  ⟨(c7_table_formats_entries [("pm2_5", mkRat 152 10), ("o3", mkRat 401 10)]
      (by decide)).1 ("pm2_5", mkRat 152 10) (by decide),
   (c7_table_formats_entries [("pm2_5", mkRat 152 10), ("o3", mkRat 401 10)]
      (by decide)).2.1⟩

/-- C8: `plot_components` is total: the empty mapping yields a chart with the
title and y-axis label set and zero bars, and every mapping yields exactly
one bar per entry, labeled with the uppercased key, in the received
iteration order. -/
theorem c8_chart_total (m : List (String × Rat)) :
    plot_components []
      = ⟨"Air Pollutant Concentrations (μg/m³)", "Concentration (μg/m³)", []⟩
  ∧ (plot_components m).title = "Air Pollutant Concentrations (μg/m³)"
  ∧ (plot_components m).ylabel = "Concentration (μg/m³)"
  ∧ (plot_components m).bars = m.map (fun p => (pyUpper p.1, p.2)) := by
  refine ⟨rfl, rfl, rfl, ?_⟩
  simp [plot_components, List.zip_map']

/-- C9: when a mapping contains two distinct keys that become equal after
uppercasing — the second occurring after the first, with no later entry
sharing that uppercased key — the table has strictly fewer rows than the
chart has bars, and the single collapsed row holds the later entry
formatted. -/
theorem c9_table_collapses_chart_does_not (xs zs : List (String × Rat))
    (k1 k2 : String) (v1 v2 : Rat)
    (hmem : (k1, v1) ∈ xs) (_hne : k1 ≠ k2) (hup : pyUpper k1 = pyUpper k2)
    (hlast : ∀ q ∈ zs, pyUpper q.1 ≠ pyUpper k2) :
    (table_data (xs ++ (k2, v2) :: zs)).length
        < (plot_components (xs ++ (k2, v2) :: zs)).bars.length
  ∧ dictGetS (table_data (xs ++ (k2, v2) :: zs)) (pyUpper k2)
        = some (fmt2 v2) := by
  have hfold : table_data (xs ++ (k2, v2) :: zs)
      = zs.foldl (fun d2 p => dictAssign d2 (pyUpper p.1) (fmt2 p.2))
          (dictAssign
            (xs.foldl (fun d2 p => dictAssign d2 (pyUpper p.1) (fmt2 p.2)) [])
            (pyUpper k2) (fmt2 v2)) := by
    unfold table_data
    rw [List.foldl_append, List.foldl_cons]
  have hD := foldl_assign_keys_of_mem xs [] (k1, v1) hmem
  rw [hup] at hD
  constructor
  · rw [hfold, plot_components_bars_length]
    calc (zs.foldl _ (dictAssign _ (pyUpper k2) (fmt2 v2))).length
        ≤ (dictAssign
              (xs.foldl (fun d2 p => dictAssign d2 (pyUpper p.1) (fmt2 p.2)) [])
              (pyUpper k2) (fmt2 v2)).length + zs.length :=
          foldl_assign_length_le _ _
      _ = (xs.foldl (fun d2 p => dictAssign d2 (pyUpper p.1) (fmt2 p.2)) []).length
            + zs.length := by
          rw [length_dictAssign_of_mem _ _ _ hD]
      _ ≤ (0 + xs.length) + zs.length :=
          Nat.add_le_add_right (foldl_assign_length_le _ _) _
      _ < (xs ++ (k2, v2) :: zs).length := by
          simp [List.length_append]
  · rw [hfold, foldl_assign_dictGetS_of_no_key _ _ _ hlast,
      dictGetS_dictAssign_self]

/-- C9 witness: the two-entry collision mapping, one row versus two bars,
with the later value kept. -/
theorem c9_table_collapses_witness :
    (table_data [("so2", 3), ("SO2", 4)]).length
        < (plot_components [("so2", 3), ("SO2", 4)]).bars.length
  ∧ dictGetS (table_data [("so2", 3), ("SO2", 4)]) (pyUpper "SO2")
        = some (fmt2 4) :=
  c9_table_collapses_chart_does_not [("so2", 3)] [] "so2" "SO2" 3 4
    (by decide) (by decide) (by decide) (by simp)

/-- C10: `geocode_city` returns None exactly when the provider returned the
empty candidate list; a non-empty list whose first candidate lacks the lat or
the lon field makes the unguarded subscript raise KeyError instead. -/
theorem c10_geocode_unguarded_access (net : NetResult (List Candidate))
    (c : Candidate) (rest : List Candidate) :
    (geocode_city net = .ok none ↔ net = .response [])
  ∧ (c.lat? = none →
      geocode_city (.response (c :: rest)) = .error (.keyError "lat"))
  ∧ (∀ la, c.lat? = some la → c.lon? = none →
      geocode_city (.response (c :: rest)) = .error (.keyError "lon")) := by
  refine ⟨⟨?_, ?_⟩, ?_, ?_⟩
  · intro h
    match net with
    | .failure e => simp [geocode_city] at h
    | .response [] => rfl
    | .response (c2 :: r2) =>
      rcases h2 : c2.lat? with _ | la <;> rcases h3 : c2.lon? with _ | lo <;>
        simp [geocode_city, h2, h3] at h
  · intro h; subst h; rfl
  · intro h; simp [geocode_city, h]
  · intro la h1 h2; simp [geocode_city, h1, h2]

/-- C10 witness: the empty response maps to None, and both missing-field
shapes raise the corresponding KeyError. -/
theorem c10_geocode_unguarded_access_witness :
    geocode_city (.response ([] : List Candidate)) = .ok none
  ∧ geocode_city (.response [(⟨none, some 0⟩ : Candidate)]) = .error (.keyError "lat")
  ∧ geocode_city (.response [(⟨some 1, none⟩ : Candidate)]) = .error (.keyError "lon") :=
  ⟨(c10_geocode_unguarded_access (.response []) ⟨none, some 0⟩ []).1.mpr rfl,
   (c10_geocode_unguarded_access (.response [⟨none, some 0⟩]) ⟨none, some 0⟩ []).2.1 rfl,
   (c10_geocode_unguarded_access (.response [⟨some 1, none⟩]) ⟨some 1, none⟩ []).2.2
     1 rfl rfl⟩
